import Mathlib

/-!
Verification of the TMP117 'Lite' temperature-sensor driver
(src/lib/TMP117/TMP117.h, src/lib/TMP117/TMP117.cpp).

Shallow embedding conventions:
* 16-bit register values and the driver's int16_t fields are represented by
  their 16-bit bit patterns as Nat; where C++ integer promotion makes the
  signed interpretation matter, the pattern is decoded explicitly with
  toInt16.  The repository's example targets a SAMD21 (tmp117_example.h:
  TMP117_ALERT is the SAMD21G PA11 pin), so int is 32 bits wide and the
  usual arithmetic conversions promote both uint16_t (zero-extended) and
  int16_t (sign-extended) to a 32-bit int; arithmetic such as minTemp_ - 6
  therefore never overflows and is modelled directly on Int.
* The two-wire transport (Arduino Wire) is an external collaborator; it is
  modelled as an oracle: Bus.reads is the list of 16-bit values the next
  i2cRead2B calls return (an exhausted oracle reads as 0, matching the
  Wire code where data stays 0 when no bytes are available), and Bus.trace
  records every transport operation in order.
* The error callback and the data-ready ISR are function pointers; only
  their presence matters here, so they are modelled as Option Unit, and an
  invocation of the error callback is recorded as the error code (a Nat,
  the value nodeError_t(thisSensor_)) appended to an invocation list.
-/

namespace TMP117Spec

/-- Register map of the device, TMP117.h line 30: enum TMP117_reg. -/
inductive TMP117_reg where
  | temp_r | conf_r | thl_r | tll_r | eep_ul_r | eep1_r | eep2_r | t_offset_r | eep3_r
deriving DecidableEq

/-- One observable transport operation: a 16-bit register read (with the value
returned), a 16-bit register write, or the I2C general-call reset issued in
TMP117.cpp lines 230-232. -/
inductive BusOp where
  | rd (reg : TMP117_reg) (val : Nat)
  | wr (reg : TMP117_reg) (val : Nat)
  | genReset
deriving DecidableEq

/-- The transport: pending read responses (the device/environment oracle) and
the log of operations performed so far. -/
structure Bus where
  reads : List Nat
  trace : List BusOp
deriving DecidableEq

/-- TMP117.h line 19: mask clearing the conversion-mode bits (bits 10-11). -/
def TMP117_MOD_CLR_MASK : Nat := 0xF3FF

/-- TMP117.h line 23: configuration-register readback mask (only these bits
are persisted in EEPROM). -/
def TMP117_CONF_RD : Nat := 0x0464

/-- TMP117.h line 32: one-shot conversion mode bits. -/
def one_shot : Nat := 0x0C00

/-- TMP117.h line 48: EEPROM unlock bit of the unlock register. -/
def eep_unlock : Nat := 0x8000

/-- TMP117.h line 48: EEPROM busy bit of the unlock register. -/
def eep_busy : Nat := 0x4000

/-- tmp117_example.h line 10: enum par, underlying values T_NOW = 0. -/
def T_NOW : Nat := 0

/-- tmp117_example.h line 10: enum par, underlying value T_MIN = 1. -/
def T_MIN : Nat := 1

/-- tmp117_example.h line 10: enum par, underlying value T_MAX = 2. -/
def T_MAX : Nat := 2

/-- Value of a 16-bit pattern read as int16_t and promoted (sign-extended) to
a 32-bit int, as the SAMD21 target does. -/
def toInt16 (n : Nat) : Int :=
  if n % 65536 < 32768 then ((n % 65536 : Nat) : Int) else ((n % 65536 : Nat) : Int) - 65536

/-- TMP117::i2cRead2B (TMP117.cpp lines 197-207): reads two bytes from a
register.  The returned value comes from the oracle (reduced to 16 bits, as
the two-byte assembly into int16_t data produces and the uint16_t return
preserves); with no pending response, data stays 0.  The read is logged. -/
def i2cRead2B (bus : Bus) (reg : TMP117_reg) : Nat × Bus :=
  match bus with
  | ⟨[], tr⟩ => (0, ⟨[], tr ++ [.rd reg 0]⟩)
  | ⟨v :: rest, tr⟩ => (v % 65536, ⟨rest, tr ++ [.rd reg (v % 65536)]⟩)

/-- TMP117::i2cWrite2B (TMP117.cpp lines 183-189): writes the 16-bit pattern
of data (sent as two bytes, hence the reduction mod 2^16) to a register. -/
def i2cWrite2B (bus : Bus) (reg : TMP117_reg) (data : Nat) : Bus :=
  ⟨bus.reads, bus.trace ++ [.wr reg (data % 65536)]⟩

/-- Busy-poll loop body: reads of the unlock register performed by
while (i2cRead2B(eep_ul_r) & eep_busy) ; (TMP117.cpp lines 57, 226, 234).
Returns the reads logged and the remaining oracle; the loop exits at the
first response with the busy bit clear (an exhausted oracle reads 0, which
has the busy bit clear). -/
def pollBusyAux : List Nat → List BusOp × List Nat
  | [] => ([.rd .eep_ul_r 0], [])
  | v :: rest =>
    if (v % 65536) &&& eep_busy ≠ 0 then
      let t := pollBusyAux rest
      (.rd .eep_ul_r (v % 65536) :: t.1, t.2)
    else ([.rd .eep_ul_r (v % 65536)], rest)

/-- Busy-poll loop on the transport state. -/
def pollBusy (bus : Bus) : Bus :=
  let t := pollBusyAux bus.reads
  ⟨t.2, bus.trace ++ t.1⟩

/-- I2C general-call reset (TMP117.cpp lines 229-232): address 0x00,
command 0x06; locks the EEPROM and reloads registers from EEPROM. -/
def generalCallReset (bus : Bus) : Bus :=
  ⟨bus.reads, bus.trace ++ [.genReset]⟩

/-- Verify-step masking (TMP117.cpp lines 238-241): for the configuration
register both the read-back and the expected value are masked with
TMP117_CONF_RD before comparing; all other registers compare in full. -/
def maskForVerify (reg : TMP117_reg) (x : Nat) : Nat :=
  if reg = .conf_r then x &&& TMP117_CONF_RD else x

/-- Result of TMP117::progEeprom: the returned error flag, the value of the
function-static busy latch after the call, and the transport state after. -/
structure ProgOut where
  err : Bool
  busy : Bool
  bus : Bus
deriving DecidableEq

/-- Attempt loop of TMP117::progEeprom (TMP117.cpp lines 217-245), written
with structural fuel.  One fuel unit is one complete programming attempt:
unlock write, value write, busy-poll, general-call reset, busy-poll,
verify read (lines 224-237).  With fuel 0 the guarded entry fires
(retries < 0), returning the error flag true with the latch as it stood
(false: every internal re-entry happens right after busy = false on line
242).  On a verify match the call returns false with the latch released; on
a mismatch it recurses with the masked value (line 240 mutates the val
parameter before the recursive call on line 244) and one fewer attempt. -/
def progEepromGo : Bus → TMP117_reg → Nat → Nat → ProgOut
  | bus, _, _, 0 => ⟨true, false, bus⟩
  | bus, reg, val, fuel + 1 =>
    let b1 := i2cWrite2B bus .eep_ul_r eep_unlock
    let b2 := i2cWrite2B b1 reg val
    let b3 := pollBusy b2
    let b4 := generalCallReset b3
    let b5 := pollBusy b4
    let ck := i2cRead2B b5 reg
    let check := maskForVerify reg ck.1
    let v := maskForVerify reg val
    if check = v then ⟨false, false, ck.2⟩
    else progEepromGo ck.2 reg v fuel

/-- TMP117::progEeprom (TMP117.cpp lines 217-245).  The function-static
busy latch is threaded explicitly.  If the latch is held at entry, fail
immediately (line 220-221) leaving the latch as found.  Otherwise a retry
budget of retries allows retries + 1 complete attempts; (retries + 1).toNat
is 0 exactly when retries < 0, the other guarded-entry case.  This fuel
formulation is observationally the C++ recursion: the recursive call on
line 244 always executes with busy == false (line 242 runs first), so only
the retries < 0 disjunct of the guard is live on internal re-entries. -/
def progEeprom (busy : Bool) (bus : Bus) (reg : TMP117_reg) (val : Nat) (retries : Int) : ProgOut :=
  if busy then ⟨true, busy, bus⟩
  else progEepromGo bus reg val (retries + 1).toNat

/-- Driver object state, TMP117.h lines 50-59.  Function pointers are
modelled by their presence (Option Unit). -/
structure TMP117 where
  address_ : Nat
  alertPin_ : Nat
  thisSensor_ : Nat
  actualTemp_ : Nat
  minTemp_ : Nat
  maxTemp_ : Nat
  saveTemp_ : Bool
  config_ : Nat
  isr_ : Option Unit
  error_ : Option Unit
deriving DecidableEq

/-- TMP117::TMP117 (TMP117.cpp lines 41-42).  The member initializer list is
address_(a), alertPin_(p), isr_(f), error_(e = nullptr): the initializer of
error_ is the assignment expression e = nullptr, whose value is nullptr, so
error_ is initialized to nullptr whatever handler e was supplied.  Members
not in the initializer list are left uninitialized in C++; they are modelled
as 0/false here and are assigned by init before use. -/
def TMP117.construct (a p : Nat) (f : Option Unit) (e : Option Unit) : TMP117 :=
  { address_ := a, alertPin_ := p, thisSensor_ := 0, actualTemp_ := 0, minTemp_ := 0,
    maxTemp_ := 0, saveTemp_ := false, config_ := 0, isr_ := f, error_ := none }

/-- TMP117::init (TMP117.cpp lines 50-61): records the save policy and sensor
index, waits out the POR sequence on the unlock register, then loads the
cached min from the high-limit register and the cached max from the
low-limit register.  pinMode/attachInterrupt/Wire.begin are environment
operations outside the register transport and are not modelled. -/
def TMP117.init (s0 : TMP117) (bus0 : Bus) (saveMinMax : Bool) (sensorId : Nat) :
    TMP117 × Bus :=
  let s1 : TMP117 := { s0 with saveTemp_ := saveMinMax, thisSensor_ := sensorId }
  let bus1 := pollBusy bus0
  let mn := i2cRead2B bus1 .thl_r
  let mx := i2cRead2B mn.2 .tll_r
  ({ s1 with minTemp_ := mn.1, maxTemp_ := mx.1 }, mx.2)

/-- Result of TMP117::initPowerUpSettings. -/
structure InitPUOut where
  err : Bool
  self : TMP117
  busy : Bool
  bus : Bus

/-- TMP117::initPowerUpSettings (TMP117.cpp lines 92-105).  Sets the sentinel
bounds minTemp_ = 0x6000 and maxTemp_ = 0x8000, then for each of the three
registers programs the EEPROM only when the guard comparison says the device
value differs.  The first two guards compare the uint16_t return of
i2cRead2B against an int16_t member: under the usual arithmetic conversions
on the 32-bit-int target both operands are promoted to int, the read
zero-extended and the member sign-extended, which is (r : Int) compared with
toInt16 of the member's pattern.  The third guard masks both sides with
TMP117_CONF_RD (a positive mask not above 0x0464), so the sign extension is
cancelled and the comparison is between the masked 16-bit patterns. -/
def TMP117.initPowerUpSettings (s0 : TMP117) (busy0 : Bool) (bus0 : Bus) : InitPUOut :=
  let s : TMP117 := { s0 with minTemp_ := 0x6000, maxTemp_ := 0x8000 }
  let r1 := i2cRead2B bus0 .tll_r
  let a : Bool × Bool × Bus :=
    if (r1.1 : Int) ≠ toInt16 s.maxTemp_ then
      let r := progEeprom busy0 r1.2 .tll_r s.maxTemp_ 2
      (false || r.err, r.busy, r.bus)
    else (false, busy0, r1.2)
  let r2 := i2cRead2B a.2.2 .thl_r
  let b : Bool × Bool × Bus :=
    if (r2.1 : Int) ≠ toInt16 s.minTemp_ then
      let r := progEeprom a.2.1 r2.2 .thl_r s.minTemp_ 2
      (a.1 || r.err, r.busy, r.bus)
    else (a.1, a.2.1, r2.2)
  let r3 := i2cRead2B b.2.2 .conf_r
  let c : Bool × Bool × Bus :=
    if r3.1 &&& TMP117_CONF_RD ≠ s.config_ &&& TMP117_CONF_RD then
      let r := progEeprom b.2.1 r3.2 .conf_r s.config_ 2
      (b.1 || r.err, r.busy, r.bus)
    else (b.1, b.2.1, r3.2)
  { err := c.1, self := s, busy := c.2.1, bus := c.2.2 }

/-- TMP117::startConversion (TMP117.cpp lines 132-136): read-modify-write of
the configuration register, clearing the mode bits and setting one-shot.
The int16_t intermediate and its sign extension before the bitwise-or do not
change the low 16 bits actually written, so the write value is computed on
the 16-bit patterns. -/
def TMP117.startConversion (bus0 : Bus) : Bus :=
  let r := i2cRead2B bus0 .conf_r
  let config := r.1 &&& TMP117_MOD_CLR_MASK
  i2cWrite2B r.2 .conf_r (config ||| one_shot)

/-- TMP117::getTemperature (TMP117.cpp lines 144-146): pure cached lookup,
p == T_MIN ? minTemp_ : p == T_MAX ? maxTemp_ : actualTemp_, with p the
underlying integer of enum par. -/
def TMP117.getTemperature (s : TMP117) (p : Nat) : Nat :=
  if p = T_MIN then s.minTemp_ else if p = T_MAX then s.maxTemp_ else s.actualTemp_

/-- Outcome of one min- or max-branch of TMP117::readSensor. -/
structure BranchOut where
  self : TMP117
  bus : Bus
  busy : Bool
  errs : List Nat

/-- Result of TMP117::readSensor: returned reading, driver state, transport
state, busy latch, updated caller-owned serviced bitmask, and the error
callback invocations (codes) made during the call, in order. -/
structure ReadOut where
  result : Nat
  self : TMP117
  bus : Bus
  busy : Bool
  serviced : Nat
  errors : List Nat

/-- TMP117::readSensor (TMP117.cpp lines 154-175).  Reads the temperature
register into actualTemp_; if the new reading is at or below minTemp_ - 6
(signed comparison after promotion) minTemp_ is updated and, when the save
policy is on, programmed into the high-limit EEPROM location, invoking the
error callback with nodeError_t(thisSensor_) when programming failed and a
handler is present; symmetrically for maxTemp_ + 6 and the low-limit
location.  Finally the sensor's bit is set in the caller-owned bitmask and
the current reading is returned. -/
def TMP117.readSensor (s0 : TMP117) (bus0 : Bus) (busy0 : Bool) (serviced : Nat) : ReadOut :=
  let t := i2cRead2B bus0 .temp_r
  let s1 : TMP117 := { s0 with actualTemp_ := t.1 }
  let m1 : BranchOut :=
    if toInt16 s1.actualTemp_ ≤ toInt16 s1.minTemp_ - 6 then
      let s2 : TMP117 := { s1 with minTemp_ := s1.actualTemp_ }
      if s2.saveTemp_ then
        let r := progEeprom busy0 t.2 .thl_r s2.minTemp_ 2
        { self := s2, bus := r.bus, busy := r.busy,
          errs := if r.err && s2.error_.isSome then [s2.thisSensor_] else [] }
      else { self := s2, bus := t.2, busy := busy0, errs := [] }
    else { self := s1, bus := t.2, busy := busy0, errs := [] }
  let m2 : BranchOut :=
    if toInt16 m1.self.actualTemp_ ≥ toInt16 m1.self.maxTemp_ + 6 then
      let s3 : TMP117 := { m1.self with maxTemp_ := m1.self.actualTemp_ }
      if s3.saveTemp_ then
        let r := progEeprom m1.busy m1.bus .tll_r s3.maxTemp_ 2
        { self := s3, bus := r.bus, busy := r.busy,
          errs := if r.err && s3.error_.isSome then [s3.thisSensor_] else [] }
      else { self := s3, bus := m1.bus, busy := m1.busy, errs := [] }
    else { self := m1.self, bus := m1.bus, busy := m1.busy, errs := [] }
  { result := m2.self.actualTemp_
    self := m2.self
    bus := m2.bus
    busy := m2.busy
    serviced := serviced ||| (1 <<< m2.self.thisSensor_)
    errors := m1.errs ++ m2.errs }

/-- Transport writes (register writes) contained in a trace. -/
def busWrites (tr : List BusOp) : List BusOp :=
  tr.filter fun op => match op with
    | .wr _ _ => true
    | _ => false

/-- Transport operations of one complete programming attempt that writes the
16-bit pattern of w to reg and reads back v at the verify step, with the
device reporting not-busy at both polls. -/
def attemptTrace (reg : TMP117_reg) (w v : Nat) : List BusOp :=
  [.wr .eep_ul_r eep_unlock, .wr reg (w % 65536), .rd .eep_ul_r 0, .genReset,
   .rd .eep_ul_r 0, .rd reg v]

/-- Concrete driver state used by several of the concrete evaluations below:
sensor index 5, cached min 3000 and max 2000, persistence off, no handler. -/
def sampleSensor : TMP117 :=
  { address_ := 0x49, alertPin_ := 11, thisSensor_ := 5, actualTemp_ := 0, minTemp_ := 3000,
    maxTemp_ := 2000, saveTemp_ := false, config_ := 0x0464, isr_ := some (), error_ := none }

/-- Run of spec scenario A on the claimed device state: initPowerUpSettings
with config_ = 0x0464, latch free, and a device whose low-limit register
reads 0x8000, whose polls report not-busy, whose low-limit verify read-back
is 0x8000, whose high-limit register reads 0x6000 and whose configuration
register reads 0x0464 (matching config_ on the persisted mask). -/
def scenarioARun : InitPUOut :=
  TMP117.initPowerUpSettings { sampleSensor with config_ := 0x0464 } false
    ⟨[0x8000, 0, 0, 0x8000, 0x6000, 0x0464], []⟩

/-- Run of spec scenario B: readSensor on sampleSensor (min 3000, max 2000,
persistence disabled, sensor index 5) with the temperature register reading
raw value 2560, latch free, empty serviced bitmask. -/
def scenarioBRun : ReadOut :=
  TMP117.readSensor sampleSensor ⟨[2560], []⟩ false 0

/-- Masking for the verify step is idempotent: masking an already-masked
value changes nothing. -/
theorem maskForVerify_idem (reg : TMP117_reg) (x : Nat) :
    maskForVerify reg (maskForVerify reg x) = maskForVerify reg x := by
  unfold maskForVerify
  split
  · rw [Nat.and_assoc, Nat.and_self]
  · rfl

/-- The attempt loop always reports the busy latch released: fuel 0 is the
guarded entry reached with the latch free, a verify match releases it, and a
mismatch recurses after releasing it. -/
theorem progEepromGo_busy (fuel : Nat) (bus : Bus) (reg : TMP117_reg) (val : Nat) :
    (progEepromGo bus reg val fuel).busy = false := by
  induction fuel generalizing bus val with
  | zero => rfl
  | succ n ih =>
    simp only [progEepromGo]
    split
    · rfl
    · exact ih _ _

/-- Guarded entry of progEeprom: with the latch held or the retry budget
negative, the call returns the error flag true with the latch and the
transport untouched. -/
theorem progEeprom_entry (busy : Bool) (bus : Bus) (reg : TMP117_reg) (val : Nat)
    (retries : Int) (h : busy = true ∨ retries < 0) :
    progEeprom busy bus reg val retries = ⟨true, busy, bus⟩ := by
  rcases h with h | h
  · subst h; simp [progEeprom]
  · cases busy
    · have h0 : (retries + 1).toNat = 0 := by omega
      simp [progEeprom, h0, progEepromGo]
    · simp [progEeprom]

/-- In the configuration word built by startConversion, the mode field holds
exactly the one-shot bits. -/
theorem conf_word_mode_bits (x : Nat) :
    ((x &&& TMP117_MOD_CLR_MASK) ||| one_shot) &&& one_shot = one_shot := by
  have e1 : TMP117_MOD_CLR_MASK &&& one_shot = 0 := by decide
  rw [Nat.and_distrib_right, Nat.and_assoc, e1, Nat.and_zero, Nat.and_self]
  have e2 : (0 : Nat) ||| one_shot = one_shot := by decide
  exact e2

/-- In the configuration word built by startConversion, all bits outside the
mode field are taken from the previous configuration value. -/
theorem conf_word_other_bits (x : Nat) :
    ((x &&& TMP117_MOD_CLR_MASK) ||| one_shot) &&& TMP117_MOD_CLR_MASK
      = x &&& TMP117_MOD_CLR_MASK := by
  have e1 : one_shot &&& TMP117_MOD_CLR_MASK = 0 := by decide
  rw [Nat.and_distrib_right, Nat.and_assoc, Nat.and_self, e1, Nat.or_zero]

/-- The configuration word built by startConversion fits in 16 bits. -/
theorem conf_word_lt (x : Nat) :
    (x &&& TMP117_MOD_CLR_MASK) ||| one_shot < 65536 := by
  have h1 : x &&& TMP117_MOD_CLR_MASK < 2 ^ 16 :=
    Nat.and_lt_two_pow x (by norm_num [TMP117_MOD_CLR_MASK])
  have h2 : one_shot < 2 ^ 16 := by norm_num [one_shot]
  have h3 := Nat.or_lt_two_pow h1 h2
  omega

/-- C1: the claim says that when an EEPROM persistence operation inside
readSensor fails after all retries and a non-null error handler was supplied
at construction, the error callback is invoked exactly once with the
sensor's index.  The code violates this: the constructor's initializer
error_(e = nullptr) stores nullptr whatever handler was supplied, so the
callback is never invoked.  This theorem evaluates the code at the failing
input: a driver constructed with a handler present, initialized with
persistence enabled and cached min 3000 / max 0x6000, reading 2560 (which
triggers a min-update persistence write) against a device whose verify
read-back is always 0, so all three programming attempts fail.  The first
conjunct shows the constructor discards the handler; the second shows the
resulting run makes no callback; the third shows that the same run with the
handler actually stored would have made exactly one callback carrying the
sensor's index 0, i.e. the silence is caused by the constructor alone. -/
theorem c1_error_callback_code_bug :
    (TMP117.construct 0x49 11 (some ()) (some ())).error_ = none ∧
    (let p := TMP117.init (TMP117.construct 0x49 11 (some ()) (some ()))
        ⟨[0, 3000, 0x6000, 2560, 0, 0, 0, 0, 0, 0, 0, 0, 0], []⟩ true 0
     (TMP117.readSensor p.1 p.2 false 0).errors) = [] ∧
    (let p := TMP117.init (TMP117.construct 0x49 11 (some ()) (some ()))
        ⟨[0, 3000, 0x6000, 2560, 0, 0, 0, 0, 0, 0, 0, 0, 0], []⟩ true 0
     (TMP117.readSensor { p.1 with error_ := some () } p.2 false 0).errors) = [0] := by
  exact ⟨rfl, by decide, by decide⟩

/-- C2: the claim says that when the low-limit register already holds 0x8000,
the high-limit register already holds 0x6000 and the configuration already
matches config_ on mask 0x0464, initPowerUpSettings performs zero transport
writes and returns false.  The code violates the zero-writes part: the guard
i2cRead2B(tll_r) != maxTemp_ compares the zero-extended uint16_t read-back
32768 with the sign-extended int16_t sentinel -32768 (32-bit int target), so
it is true even when the register holds 0x8000 and a full programming cycle
runs on the low-limit register.  Evaluating at exactly the claimed device
state: the call still returns false (the spurious programming verifies), but
the trace contains two register writes (unlock, low-limit) where the claim
requires none. -/
theorem c2_power_up_settings_code_bug :
    scenarioARun.err = false ∧
    busWrites scenarioARun.bus.trace = [.wr .eep_ul_r 0x8000, .wr .tll_r 0x8000] ∧
    busWrites scenarioARun.bus.trace ≠ [] := by
  exact ⟨by decide, by decide, by decide⟩

/-- C3 counterexample: the claim asserts that after readSensor processes raw
value 2560 with prior min 3000, max 2000 and persistence disabled, min is
unchanged at 3000.  Evaluating the code at exactly that input refutes it:
2560 is at or below 3000 - 6, so min is updated as well. -/
theorem c3_scenario_counterexample :
    ¬ (scenarioBRun.self.minTemp_ = 3000) := by
  decide

/-- C3 amended: when readSensor is called with the temperature register
reading raw value 2560, prior state min = 3000, max = 2000 and persistence
disabled, afterwards min equals 2560 as well (it updates, since
2560 <= 3000 - 6), max equals 2560, no error callback is invoked, the
serviced-bitmask bit for the sensor's index (5) is set, and the call
returns 2560. -/
theorem c3_scenario_amended :
    scenarioBRun.result = 2560 ∧
    scenarioBRun.self.minTemp_ = 2560 ∧
    scenarioBRun.self.maxTemp_ = 2560 ∧
    scenarioBRun.errors = [] ∧
    scenarioBRun.serviced.testBit 5 = true := by
  exact ⟨by decide, by decide, by decide, by decide, by decide⟩

/-- C4: with a transport whose read-back after programming always mismatches
the written value (under the code's own verify comparison), a top-level
progEeprom call with retry budget 2 performs exactly three complete
programming attempts - the resulting transport trace is precisely three
copies of the unlock/program/poll/reset/poll/verify sequence - and returns
the error flag true with the busy latch released.  The oracle supplies, per
attempt, two not-busy poll responses and the mismatching verify read-back;
retry attempts re-program the re-masked value, exactly as the mutated val
parameter makes the recursive call do. -/
theorem c4_retry_exhaustion (reg : TMP117_reg) (val v1 v2 v3 : Nat)
    (h1 : maskForVerify reg (v1 % 65536) ≠ maskForVerify reg val)
    (h2 : maskForVerify reg (v2 % 65536) ≠ maskForVerify reg val)
    (h3 : maskForVerify reg (v3 % 65536) ≠ maskForVerify reg val) :
    progEeprom false ⟨[0, 0, v1, 0, 0, v2, 0, 0, v3], []⟩ reg val 2 =
      ⟨true, false,
        ⟨[], attemptTrace reg val (v1 % 65536) ++
             attemptTrace reg (maskForVerify reg val) (v2 % 65536) ++
             attemptTrace reg (maskForVerify reg val) (v3 % 65536)⟩⟩ := by
  have hi := maskForVerify_idem reg val
  simp [progEeprom, progEepromGo, i2cWrite2B, pollBusy, pollBusyAux, generalCallReset,
        i2cRead2B, eep_busy, eep_unlock, attemptTrace, hi, h1, h2, h3]

/-- Witness for C4 at a concrete input: low-limit register, written value 5,
verify read-back always 7. -/
theorem c4_retry_exhaustion_witness :
    (maskForVerify .tll_r (7 % 65536) ≠ maskForVerify .tll_r 5) ∧
    (maskForVerify .tll_r (7 % 65536) ≠ maskForVerify .tll_r 5) ∧
    (maskForVerify .tll_r (7 % 65536) ≠ maskForVerify .tll_r 5) ∧
    progEeprom false ⟨[0, 0, 7, 0, 0, 7, 0, 0, 7], []⟩ .tll_r 5 2 =
      ⟨true, false,
        ⟨[], attemptTrace .tll_r 5 (7 % 65536) ++
             attemptTrace .tll_r (maskForVerify .tll_r 5) (7 % 65536) ++
             attemptTrace .tll_r (maskForVerify .tll_r 5) (7 % 65536)⟩⟩ :=
  ⟨by decide, by decide, by decide,
   c4_retry_exhaustion .tll_r 5 7 7 7 (by decide) (by decide) (by decide)⟩

/-- C5 counterexample: the claim asserts the busy latch is not held after
any call to progEeprom returns, including a call rejected at guarded entry.
A call entered while the latch is already held (the reentrant case the
guard exists for) is rejected without touching the latch, so the latch is
still held after that call returns. -/
theorem c5_latch_counterexample :
    ¬ ((progEeprom true ⟨[], []⟩ .tll_r 0 2).busy = false) := by
  decide

/-- C5 amended: every call to progEeprom entered with the global busy latch
free returns with the latch free - on every path: success, verify failure
with retries, retry exhaustion, and guarded entry on a negative retry
budget.  A call rejected at guarded entry because the latch is already held
leaves the latch exactly as it found it (held by its outer holder). -/
theorem c5_latch_amended :
    (∀ (bus : Bus) (reg : TMP117_reg) (val : Nat) (retries : Int),
        (progEeprom false bus reg val retries).busy = false) ∧
    (∀ (busy : Bool) (bus : Bus) (reg : TMP117_reg) (val : Nat) (retries : Int),
        busy = true ∨ retries < 0 →
        (progEeprom busy bus reg val retries).busy = busy) := by
  constructor
  · intro bus reg val retries
    simp only [progEeprom, Bool.false_eq_true, if_false]
    exact progEepromGo_busy _ _ _ _
  · intro busy bus reg val retries h
    rw [progEeprom_entry busy bus reg val retries h]

/-- Witness for C5 amended at concrete inputs: a latch-free call with an
empty oracle exhausts its budget and returns with the latch free; a call
entered with the latch held returns with it still held. -/
theorem c5_latch_amended_witness :
    (progEeprom false ⟨[], []⟩ .tll_r 0 2).busy = false ∧
    ((true = true ∨ (2 : Int) < 0) ∧ (progEeprom true ⟨[], []⟩ .tll_r 0 2).busy = true) :=
  ⟨c5_latch_amended.1 ⟨[], []⟩ .tll_r 0 2,
   ⟨Or.inl rfl, c5_latch_amended.2 true ⟨[], []⟩ .tll_r 0 2 (Or.inl rfl)⟩⟩

/-- C6: a progEeprom call entered while the global busy latch is already
held, or with a retry budget below zero, returns the error flag true
immediately, with the transport state unchanged - no read, write or reset
is performed (the returned bus equals the input bus, trace included). -/
theorem c6_guarded_entry (busy : Bool) (bus : Bus) (reg : TMP117_reg) (val : Nat)
    (retries : Int) (h : busy = true ∨ retries < 0) :
    progEeprom busy bus reg val retries = ⟨true, busy, bus⟩ :=
  progEeprom_entry busy bus reg val retries h

/-- Witness for C6 at a concrete input: latch already held, budget 2. -/
theorem c6_guarded_entry_witness :
    (true = true ∨ (2 : Int) < 0) ∧
    progEeprom true ⟨[], []⟩ .tll_r 0 2 = ⟨true, true, ⟨[], []⟩⟩ :=
  ⟨Or.inl rfl, c6_guarded_entry true ⟨[], []⟩ .tll_r 0 2 (Or.inl rfl)⟩

/-- C7: in progEeprom's verify step (a single attempt against a device whose
polls report not-busy and whose verify read-back is the 16-bit value v),
verification succeeds for the configuration register exactly when read-back
and written value agree on the persisted mask 0x0464 - values differing only
outside the mask are treated as equal - while for every other register it
succeeds exactly when the read-back equals the written value in full. -/
theorem c7_verify_masking (reg : TMP117_reg) (val v : Nat) (hv : v < 65536) :
    ((progEeprom false ⟨[0, 0, v], []⟩ reg val 0).err = false) ↔
      (if reg = .conf_r then v &&& TMP117_CONF_RD = val &&& TMP117_CONF_RD
       else v = val) := by
  have hv' : v % 65536 = v := Nat.mod_eq_of_lt hv
  by_cases hr : reg = .conf_r
  · subst hr
    simp only [progEeprom, progEepromGo, pollBusy, pollBusyAux, i2cRead2B, i2cWrite2B,
               generalCallReset, maskForVerify, hv', eep_busy]
    norm_num
    split <;> simp_all [Nat.mod_eq_of_lt hv]
  · simp only [progEeprom, progEepromGo, pollBusy, pollBusyAux, i2cRead2B, i2cWrite2B,
               generalCallReset, maskForVerify, hv', hr, eep_busy]
    norm_num [hr]
    split <;> simp_all [Nat.mod_eq_of_lt hv]

/-- Witness for C7 at a concrete input: configuration register, written value
0x0C64 and read-back 0x0464 differ only in bit 11, outside mask 0x0464, so
verification succeeds. -/
theorem c7_verify_masking_witness :
    (0x0464 : Nat) < 65536 ∧
    (((progEeprom false ⟨[0, 0, 0x0464], []⟩ .conf_r 0x0C64 0).err = false) ↔
      (if TMP117_reg.conf_r = .conf_r
       then 0x0464 &&& TMP117_CONF_RD = 0x0C64 &&& TMP117_CONF_RD
       else (0x0464 : Nat) = 0x0C64)) :=
  ⟨by decide, c7_verify_masking .conf_r 0x0C64 0x0464 (by decide)⟩

/-- C8: for every raw 16-bit reading r processed by readSensor (any prior
driver state, any busy-latch value, any save policy, any oracle for the
persistence traffic): the current reading afterwards is exactly the 16-bit
pattern read (no rounding or clamping), min is set to the reading if and
only if (as signed values) it is at or below min - 6 and is otherwise
unchanged, max is symmetrically set if and only if the reading is at or
above max + 6, the two updates being decided independently of each other,
and the call returns the reading. -/
theorem c8_reading_update (s : TMP117) (busy : Bool) (serviced r : Nat) (rest : List Nat)
    (tr : List BusOp) :
    let out := TMP117.readSensor s ⟨r :: rest, tr⟩ busy serviced
    out.self.actualTemp_ = r % 65536 ∧
    out.self.minTemp_ =
      (if toInt16 (r % 65536) ≤ toInt16 s.minTemp_ - 6 then r % 65536 else s.minTemp_) ∧
    out.self.maxTemp_ =
      (if toInt16 (r % 65536) ≥ toInt16 s.maxTemp_ + 6 then r % 65536 else s.maxTemp_) ∧
    out.result = r % 65536 := by
  simp only [TMP117.readSensor, i2cRead2B]
  split_ifs <;> simp_all

/-- C9: for every prior configuration value c, startConversion performs
exactly one read of the configuration register followed by exactly one
write, to the configuration register and to no other register; the written
word's mode bits equal the one-shot value 0x0C00 and its remaining bits
equal the corresponding bits of c. -/
theorem c9_start_conversion (c : Nat) (rest : List Nat) (tr : List BusOp) :
    TMP117.startConversion ⟨c :: rest, tr⟩ =
      ⟨rest, tr ++ [.rd .conf_r (c % 65536),
        .wr .conf_r (((c % 65536) &&& TMP117_MOD_CLR_MASK) ||| one_shot)]⟩ ∧
    (((c % 65536) &&& TMP117_MOD_CLR_MASK) ||| one_shot) &&& one_shot = one_shot ∧
    (((c % 65536) &&& TMP117_MOD_CLR_MASK) ||| one_shot) &&& TMP117_MOD_CLR_MASK
      = (c % 65536) &&& TMP117_MOD_CLR_MASK := by
  refine ⟨?_, conf_word_mode_bits _, conf_word_other_bits _⟩
  simp [TMP117.startConversion, i2cRead2B, i2cWrite2B,
        Nat.mod_eq_of_lt (conf_word_lt (c % 65536))]

/-- C10: getTemperature is a pure lookup (a function of the driver state
with no state output): it returns the stored minimum for p = T_MIN, the
stored maximum for p = T_MAX, and the current reading for every other
value of p, including T_NOW and any value outside the three-member
enumeration. -/
theorem c10_get_temperature (s : TMP117) :
    s.getTemperature T_MIN = s.minTemp_ ∧
    s.getTemperature T_MAX = s.maxTemp_ ∧
    ∀ p : Nat, p ≠ T_MIN → p ≠ T_MAX → s.getTemperature p = s.actualTemp_ := by
  refine ⟨rfl, rfl, ?_⟩
  intro p h1 h2
  simp [TMP117.getTemperature, h1, h2]

/-- Witness for C10 at a concrete input: the out-of-enumeration value 7
yields the current reading. -/
theorem c10_get_temperature_witness :
    (7 : Nat) ≠ T_MIN ∧ (7 : Nat) ≠ T_MAX ∧
    sampleSensor.getTemperature 7 = sampleSensor.actualTemp_ :=
  ⟨by decide, by decide, (c10_get_temperature sampleSensor).2.2 7 (by decide) (by decide)⟩

end TMP117Spec
